import Mathlib

/-!
Shallow embedding of the booking controller of the studio-booking-assistant
repository (src/unnamed/part_000, a Node/Express controller over a document
store) together with the route-level validation (src/server/src/routes/
booking.routes.js).

Times are modelled as integer millisecond timestamps, ids as naturals,
monetary values as rationals.  The external Staff/Room/Studio/Equipment/User
collections consumed by the controller are modelled as lists inside a `Db`
record; the notification service (`sendEmail`) is modelled by a boolean
parameter saying whether the send succeeds (a failed send throws, which the
controller's outer `catch` turns into a server error).
-/

namespace StudioBooking

/-- Booking lifecycle status (`pending`, `confirmed`, `cancelled`,
`completed`), as in the schema enum. -/
inductive Status where
  | pending
  | confirmed
  | cancelled
  | completed
deriving DecidableEq

/-- User role (`user_type` enum: `studio_owner`, `musician`, `staff`). -/
inductive Role where
  | studio_owner
  | musician
  | staffRole
deriving DecidableEq

/-- A user record (only the parts the booking controller reads). -/
structure User where
  id : Nat
  userType : Role
deriving DecidableEq

/-- A studio record: `owner` is the owning user's id. -/
structure Studio where
  id : Nat
  owner : Nat
deriving DecidableEq

/-- A room record: `studio` is the studio id, `hourlyRate` the decimal rate. -/
structure Room where
  id : Nat
  studio : Nat
  hourlyRate : Rat
deriving DecidableEq

/-- An equipment record (only the id matters to the controller's checks). -/
structure EquipmentItem where
  id : Nat
deriving DecidableEq

/-- A staff record: links a user to the studio they work for. -/
structure StaffRec where
  id : Nat
  user : Nat
  studio : Nat
deriving DecidableEq

/-- A booking document, mirroring the fields the controller reads and
writes: room id, client id, window, requested equipment ids, assigned staff
ids, amount, notes, status and the cancellation bookkeeping fields. -/
structure Booking where
  id : Nat
  room : Nat
  client : Nat
  startTime : Int
  endTime : Int
  equipment : List Nat
  staff : List Nat
  totalAmount : Rat
  notes : String
  status : Status
  cancellationReason : String
  cancelledBy : Option Nat
  cancelledAt : Option Int
deriving DecidableEq

/-- The document store the controller queries. -/
structure Db where
  bookings : List Booking
  rooms : List Room
  studios : List Studio
  equipmentItems : List EquipmentItem
  staffRecords : List StaffRec
deriving DecidableEq

/-- `findById`-style lookup for bookings. -/
def findBooking (bs : List Booking) (i : Nat) : Option Booking :=
  bs.find? (fun b => b.id == i)

/-- `Room.findById`. -/
def findRoom (db : Db) (i : Nat) : Option Room :=
  db.rooms.find? (fun r => r.id == i)

/-- `Studio` lookup performed by `.populate('studio')` on a room. -/
def findStudio (db : Db) (i : Nat) : Option Studio :=
  db.studios.find? (fun s => s.id == i)

/-- `Staff.exists({ user, studio })`. -/
def staffExists (db : Db) (userId studioId : Nat) : Bool :=
  db.staffRecords.any (fun sr => sr.user == userId && sr.studio == studioId)

/-- The `$or` filter used by every availability query in `createBooking`
(lines 161-168, 187-191, 215-219 of the controller): an existing document
with window `[bStart, bEnd)` matches a requested window `[s, e)` when
`(bStart ≤ s ∧ bEnd > s) ∨ (bStart < e ∧ bEnd ≥ e) ∨ (bStart ≥ s ∧ bEnd ≤ e)`. -/
def overlapQuery (bStart bEnd s e : Int) : Bool :=
  (bStart ≤ s && bEnd > s) || (bStart < e && bEnd ≥ e) || (bStart ≥ s && bEnd ≤ e)

/-- `Booking.findOne({ <resource filter>, status: { $ne: 'cancelled' }, $or: [...] })`:
the first stored booking matching the resource filter, not cancelled, whose
window matches the `$or` disjunction above.  `createBooking` runs this query
once for the room and once per requested equipment id and staff id. -/
def conflictQuery (bs : List Booking) (sel : Booking → Bool) (s e : Int) :
    Option Booking :=
  bs.find? (fun b =>
    sel b && b.status != Status.cancelled && overlapQuery b.startTime b.endTime s e)

/-! ### JavaScript number arithmetic

`createBooking` computes `totalAmount = room.hourlyRate * durationHours`
with `durationHours = (endDate - startDate) / (1000 * 60 * 60)` on
JavaScript numbers, i.e. IEEE-754 binary64 values.  The model below rounds
exact rational results to 53 significant bits, round-to-nearest ties-to-even,
on the normal range (overflow and subnormals are not modelled; every value
this file evaluates the model at is far inside the normal range). -/

/-- Round-to-nearest ties-to-even of the fraction `n / d` (`n ≥ 0`, `d > 0`). -/
def roundTiesEvenInt (n d : Int) : Int :=
  let f := n / d
  let r := n - f * d
  if 2 * r < d then f
  else if d < 2 * r then f + 1
  else if f % 2 = 0 then f else f + 1

/-- `2 ^ e ≤ n / d` for a possibly negative exponent, in integer
arithmetic (`n, d > 0`). -/
def pow2Le (e : Int) (n d : Int) : Bool :=
  if 0 ≤ e then d * (2 ^ e.toNat : Nat) ≤ n
  else d ≤ n * (2 ^ (-e).toNat : Nat)

/-- Exponent of the binade containing `n / d`: the `e` with
`2 ^ e ≤ n / d < 2 ^ (e + 1)`, found by a bounded walk from 0 (the fuel
covers the whole binary64 exponent range). -/
def binadeExp : Nat → Int → Int → Int → Int
  | 0, e, _, _ => e
  | fuel + 1, e, n, d =>
      if !pow2Le e n d then binadeExp fuel (e - 1) n d
      else if pow2Le (e + 1) n d then binadeExp fuel (e + 1) n d
      else e

/-- Binary64 rounding of `n / d` for `d > 0`: scale the magnitude into the
binade, round the 53-bit significand to nearest ties-to-even, and rebuild
the dyadic rational. -/
def b64Pos (n d : Int) : Rat :=
  if n = 0 then 0
  else
    let an := |n|
    let e := binadeExp 1100 0 an d
    let m :=
      if 52 ≤ e then roundTiesEvenInt an (d * (2 ^ (e - 52).toNat : Nat))
      else roundTiesEvenInt (an * (2 ^ (52 - e).toNat : Nat)) d
    let sm := if n < 0 then -m else m
    if 52 ≤ e then Rat.divInt (sm * (2 ^ (e - 52).toNat : Nat)) 1
    else Rat.divInt sm (2 ^ (52 - e).toNat : Nat)

/-- Binary64 rounding of the exact rational `n / d`. -/
def b64 (n d : Int) : Rat :=
  if d < 0 then b64Pos (-n) (-d) else b64Pos n d

/-- JavaScript `*` on numbers: exact product, rounded to binary64. -/
def jsMul (a b : Rat) : Rat :=
  b64 (a.num * b.num) ((a.den : Int) * (b.den : Int))

/-- JavaScript `/` on numbers: exact quotient, rounded to binary64. -/
def jsDiv (a b : Rat) : Rat :=
  b64 (a.num * (b.den : Int)) ((a.den : Int) * b.num)

/-- Lines 231-237 of the controller: duration in hours then
`hourlyRate * durationHours`, in JavaScript number arithmetic.  The
millisecond timestamp difference is exact integer arithmetic (far below
2^53 for real dates). -/
def computeTotalAmount (hourlyRate : Rat) (startTime endTime : Int) : Rat :=
  jsMul hourlyRate (jsDiv ((endTime - startTime : Int) : Rat) 3600000)

/-! ### The controller operations

The controller references the `Staff` and `Studio` models (without a
`require`); the embedding resolves those references to the corresponding
collections of the store, their evident meaning.  `sendEmail` is modelled by
an `emailOk` flag: a rejected send throws inside the `try`, which the outer
`catch` turns into a 500 response, after any `save` already performed. -/

/-- Body of `POST /api/bookings` after the route's express-validator chain
(which only checks that `roomId` is non-empty and the two times are
ISO-8601 date strings; no relation between the two times is validated). -/
structure CreateReq where
  roomId : Nat
  startTime : Int
  endTime : Int
  equipmentIds : List Nat
  staffIds : List Nat
  notes : String
deriving DecidableEq

/-- Responses of `createBooking`, one constructor per `res.status(...)` exit. -/
inductive CreateResp where
  | notFoundRoom                       -- 404 room not found
  | roomUnavailable                    -- 400 room not available
  | equipmentMissing                   -- 400 equipment items not found
  | equipmentUnavailable (eid : Nat)   -- 400 equipment not available
  | staffMissing                       -- 400 staff members not found
  | staffUnavailable (sid : Nat)       -- 400 staff not available
  | serverError                        -- 500 outer catch
  | created (b : Booking)              -- 201
deriving DecidableEq

/-- The per-id availability loops of `createBooking` (equipment lines
183-200, staff lines 211-228): the first requested id whose conflict query
finds a booking; the store field `equipment`/`staff` is an array, so the
Mongo equality filter is membership. -/
def firstConflict (bs : List Booking) (field : Booking → List Nat)
    (ids : List Nat) (s e : Int) : Option Nat :=
  ids.find? (fun rid =>
    (conflictQuery bs (fun b => (field b).contains rid) s e).isSome)

/-- `createBooking` (controller lines 142-283): resolve the room, check the
room then each requested equipment id then each requested staff id for
conflicts, price the booking, persist it as `pending`, then email the studio
owner (a failed send reaches the outer catch after the save). -/
def createBooking (db : Db) (req : CreateReq) (actor : User) (newId : Nat)
    (emailOk : Bool) : CreateResp × Db :=
  match findRoom db req.roomId with
  | none => (CreateResp.notFoundRoom, db)
  | some room =>
    if (conflictQuery db.bookings (fun b => b.room == req.roomId)
          req.startTime req.endTime).isSome then
      (CreateResp.roomUnavailable, db)
    else if !req.equipmentIds.isEmpty &&
        (db.equipmentItems.filter
          (fun it => req.equipmentIds.contains it.id)).length
          != req.equipmentIds.length then
      (CreateResp.equipmentMissing, db)
    else
      match (if req.equipmentIds.isEmpty then none
             else firstConflict db.bookings (fun b => b.equipment)
                    req.equipmentIds req.startTime req.endTime) with
      | some eid => (CreateResp.equipmentUnavailable eid, db)
      | none =>
        if !req.staffIds.isEmpty &&
            (db.staffRecords.filter
              (fun sr => req.staffIds.contains sr.id)).length
              != req.staffIds.length then
          (CreateResp.staffMissing, db)
        else
          match (if req.staffIds.isEmpty then none
                 else firstConflict db.bookings (fun b => b.staff)
                        req.staffIds req.startTime req.endTime) with
          | some sid => (CreateResp.staffUnavailable sid, db)
          | none =>
            let amount := computeTotalAmount room.hourlyRate
              req.startTime req.endTime
            let nb : Booking :=
              { id := newId, room := req.roomId, client := actor.id,
                startTime := req.startTime, endTime := req.endTime,
                equipment := req.equipmentIds, staff := req.staffIds,
                totalAmount := amount, notes := req.notes,
                status := Status.pending, cancellationReason := "",
                cancelledBy := none, cancelledAt := none }
            let db2 : Db := { db with bookings := db.bookings ++ [nb] }
            if emailOk then (CreateResp.created nb, db2)
            else (CreateResp.serverError, db2)

/-- Body of `PUT /api/bookings/:id`; `none` models an absent field.
JS truthiness drives the assignments: an empty-string `notes` is falsy and
skipped, while an array value (even empty) is truthy. -/
structure UpdateReq where
  notes : Option String
  equipmentIds : Option (List Nat)
  status : Option Status
  staffIds : Option (List Nat)
deriving DecidableEq

/-- Responses of `updateBooking`. -/
inductive UpdateResp where
  | notFound                -- 404
  | forbidden               -- 403
  | cannotUpdateNonPending  -- 400 client updating a non-pending booking
  | serverError             -- 500
  | ok (b : Booking)        -- 200 with the updated booking
deriving DecidableEq

/-- Result of `updateBooking`: response, resulting store, and whether the
status-change notification email was dispatched. -/
structure UpdateOut where
  resp : UpdateResp
  db : Db
  emailSent : Bool
deriving DecidableEq

/-- `booking.save()` on a fetched-and-mutated document: replace the stored
document with the same id. -/
def saveBooking (bs : List Booking) (nb : Booking) : List Booking :=
  bs.map (fun b => if b.id == nb.id then nb else b)

/-- The client-path field assignments of `updateBooking` (lines 314-317):
`if (notes) booking.notes = notes; if (equipmentIds) booking.equipment =
equipmentIds;` with JS truthiness (empty string falsy, arrays truthy). -/
def clientPatch (b : Booking) (req : UpdateReq) : Booking :=
  let b1 := match req.notes with
    | some s => if s == "" then b else { b with notes := s }
    | none => b
  match req.equipmentIds with
  | some l => { b1 with equipment := l }
  | none => b1

/-- The owner/staff-path field assignments of `updateBooking` (lines
323-326): `if (status) booking.status = status; if (staffIds) booking.staff
= staffIds; if (notes) booking.notes = notes;`. -/
def ownerPatch (b : Booking) (req : UpdateReq) : Booking :=
  let b1 := match req.status with
    | some st => { b with status := st }
    | none => b
  let b2 := match req.staffIds with
    | some l => { b1 with staff := l }
    | none => b1
  match req.notes with
  | some s => if s == "" then b2 else { b2 with notes := s }
  | none => b2

/-- `updateBooking` (controller lines 290-362).  A client may edit
`notes`/`equipment` of a pending booking; an owner or staff member may edit
`status`/`staff`/`notes` of any booking.  No availability check of any kind
is performed.  The status-change email guard compares the requested status
with the booking object after the assignment `booking.status = status` has
already happened. -/
def updateBooking (db : Db) (bookingId : Nat) (req : UpdateReq)
    (actor : User) : UpdateOut :=
  match findBooking db.bookings bookingId with
  | none => ⟨UpdateResp.notFound, db, false⟩
  | some booking =>
    let isClient := booking.client == actor.id
    match findRoom db booking.room with
    | none => ⟨UpdateResp.serverError, db, false⟩
    | some room =>
      match findStudio db room.studio with
      | none => ⟨UpdateResp.serverError, db, false⟩
      | some studio =>
        let isStudioOwner := studio.owner == actor.id
        let isStaff := actor.userType == Role.staffRole &&
          staffExists db actor.id studio.id
        if !(isClient || isStudioOwner || isStaff) then
          ⟨UpdateResp.forbidden, db, false⟩
        else if isClient then
          if booking.status != Status.pending then
            ⟨UpdateResp.cannotUpdateNonPending, db, false⟩
          else
            let b2 := clientPatch booking req
            ⟨UpdateResp.ok b2,
              { db with bookings := saveBooking db.bookings b2 }, false⟩
        else
          let b3 := ownerPatch booking req
          let emailSent := match req.status with
            | some st => st != b3.status
            | none => false
          ⟨UpdateResp.ok b3,
            { db with bookings := saveBooking db.bookings b3 }, emailSent⟩

/-- Responses of `deleteBooking`. -/
inductive DeleteResp where
  | notFound                -- 404
  | forbidden               -- 403
  | cannotDeleteNonPending  -- 400 client deleting a non-pending booking
  | serverError             -- 500
  | ok                      -- 200 deleted
deriving DecidableEq

/-- `deleteBooking` (controller lines 369-399): any of client, studio owner
or studio staff passes the authorization check; a client is additionally
restricted to pending bookings; then the document is removed. -/
def deleteBooking (db : Db) (bookingId : Nat) (actor : User) :
    DeleteResp × Db :=
  match findBooking db.bookings bookingId with
  | none => (DeleteResp.notFound, db)
  | some booking =>
    let isClient := booking.client == actor.id
    match findRoom db booking.room with
    | none => (DeleteResp.serverError, db)
    | some room =>
      match findStudio db room.studio with
      | none => (DeleteResp.serverError, db)
      | some studio =>
        let isStudioOwner := studio.owner == actor.id
        let isStaff := actor.userType == Role.staffRole &&
          staffExists db actor.id studio.id
        if !(isClient || isStudioOwner || isStaff) then
          (DeleteResp.forbidden, db)
        else if isClient && booking.status != Status.pending then
          (DeleteResp.cannotDeleteNonPending, db)
        else
          (DeleteResp.ok,
            { db with bookings := db.bookings.eraseP (fun b => b.id == bookingId) })

/-- Responses of `confirmBooking`. -/
inductive ConfirmResp where
  | notFound     -- 404
  | forbidden    -- 403 (route middleware or relationship check)
  | serverError  -- 500
  | ok           -- 200
deriving DecidableEq

/-- `confirmBooking` (controller lines 406-454, route middleware
`authorize('studio_owner', 'staff')`): after the authorization checks the
status is set to `confirmed` unconditionally (no check of the current
status), the document saved, then the client is emailed. -/
def confirmBooking (db : Db) (bookingId : Nat) (actor : User)
    (emailOk : Bool) : ConfirmResp × Db :=
  if !(actor.userType == Role.studio_owner || actor.userType == Role.staffRole) then
    (ConfirmResp.forbidden, db)
  else
    match findBooking db.bookings bookingId with
    | none => (ConfirmResp.notFound, db)
    | some booking =>
      match findRoom db booking.room with
      | none => (ConfirmResp.serverError, db)
      | some room =>
        match findStudio db room.studio with
        | none => (ConfirmResp.serverError, db)
        | some studio =>
          let isStudioOwner := studio.owner == actor.id
          let isStaff := actor.userType == Role.staffRole &&
            staffExists db actor.id studio.id
          if !(isStudioOwner || isStaff) then
            (ConfirmResp.forbidden, db)
          else
            let nb := { booking with status := Status.confirmed }
            let db2 := { db with bookings := saveBooking db.bookings nb }
            if emailOk then (ConfirmResp.ok, db2)
            else (ConfirmResp.serverError, db2)

/-- `req.body.reason || 'No reason provided'` (line 480): the supplied
reason, with absent or empty-string (falsy) values replaced by the
default. -/
def reasonOrDefault (reason : Option String) : String :=
  match reason with
  | some r => if r == "" then "No reason provided" else r
  | none => "No reason provided"

/-- Responses of `cancelBooking`. -/
inductive CancelResp where
  | notFound     -- 404
  | forbidden    -- 403
  | serverError  -- 500
  | ok           -- 200
deriving DecidableEq

/-- `cancelBooking` (controller lines 461-528): any of client, studio owner
or studio staff may cancel; the status is set to `cancelled` unconditionally
(no check of the current status) with the cancellation bookkeeping fields,
the document saved, then emails are sent. -/
def cancelBooking (db : Db) (bookingId : Nat) (actor : User)
    (reason : Option String) (now : Int) (emailOk : Bool) :
    CancelResp × Db :=
  match findBooking db.bookings bookingId with
  | none => (CancelResp.notFound, db)
  | some booking =>
    let isClient := booking.client == actor.id
    match findRoom db booking.room with
    | none => (CancelResp.serverError, db)
    | some room =>
      match findStudio db room.studio with
      | none => (CancelResp.serverError, db)
      | some studio =>
        let isStudioOwner := studio.owner == actor.id
        let isStaff := actor.userType == Role.staffRole &&
          staffExists db actor.id studio.id
        if !(isClient || isStudioOwner || isStaff) then
          (CancelResp.forbidden, db)
        else
          let reasonText := reasonOrDefault reason
          let nb := { booking with
            status := Status.cancelled
            cancellationReason := reasonText
            cancelledBy := some actor.id
            cancelledAt := some now }
          let db2 := { db with bookings := saveBooking db.bookings nb }
          if emailOk then (CancelResp.ok, db2)
          else (CancelResp.serverError, db2)

/-! ### Concrete fixtures used by witnesses and counterexamples -/

/-- Studio 1, owned by user 20. -/
def demoStudio : Studio := ⟨1, 20⟩

/-- Room 1 of studio 1, hourly rate 50. -/
def roomOne : Room := ⟨1, 1, 50⟩

/-- Room 2 of studio 1, hourly rate 100. -/
def roomTwo : Room := ⟨2, 1, 100⟩

/-- The studio owner (user 20). -/
def ownerUser : User := ⟨20, Role.studio_owner⟩

/-- A musician client (user 10). -/
def clientUser : User := ⟨10, Role.musician⟩

/-- A second musician client (user 11). -/
def otherClient : User := ⟨11, Role.musician⟩

/-- The empty string (a falsy JavaScript value). -/
def emptyString : String := ""

/-- Build a booking document with empty bookkeeping fields. -/
def mkBooking (i roomId clientId : Nat) (s e : Int) (eqs sts : List Nat)
    (status : Status) : Booking :=
  ⟨i, roomId, clientId, s, e, eqs, sts, 0, "", status, "", none, none⟩

/-! ### Theorems -/

/-- The `$or` disjunction is exactly half-open interval overlap, for
well-formed windows. -/
theorem overlapQuery_eq_overlap (bStart bEnd s e : Int)
    (hb : bStart < bEnd) (hse : s < e) :
    overlapQuery bStart bEnd s e = true ↔ (s < bEnd ∧ bStart < e) := by
  unfold overlapQuery
  simp only [Bool.or_eq_true, Bool.and_eq_true, decide_eq_true_eq]
  omega

/-- C1: for any resource selector (the room filter, an equipment id filter
or a staff id filter) and any candidate window `[s, e)` with `s < e`, the
availability query run by the booking-creation flow finds a conflict iff
some stored booking matching the selector, with status other than
`cancelled`, has a window `[s', e')` with `s < e'` and `s' < e` (half-open
overlap); in particular a cancelled booking never causes a conflict. -/
theorem conflictQuery_isSome_iff_overlap (bs : List Booking)
    (sel : Booking → Bool) (s e : Int)
    (hwf : ∀ b ∈ bs, b.startTime < b.endTime) (hse : s < e) :
    (conflictQuery bs sel s e).isSome ↔
      ∃ b ∈ bs, sel b = true ∧ b.status ≠ Status.cancelled ∧
        s < b.endTime ∧ b.startTime < e := by
  unfold conflictQuery
  rw [List.find?_isSome]
  constructor
  · rintro ⟨b, hb, hp⟩
    simp only [Bool.and_eq_true, bne_iff_ne, ne_eq] at hp
    obtain ⟨⟨hm, hst⟩, hov⟩ := hp
    have h2 := (overlapQuery_eq_overlap _ _ _ _ (hwf b hb) hse).1 hov
    exact ⟨b, hb, hm, hst, h2.1, h2.2⟩
  · rintro ⟨b, hb, hm, hst, h1, h2⟩
    refine ⟨b, hb, ?_⟩
    simp only [Bool.and_eq_true, bne_iff_ne, ne_eq]
    exact ⟨⟨hm, hst⟩, (overlapQuery_eq_overlap _ _ _ _ (hwf b hb) hse).2 ⟨h1, h2⟩⟩

/-- Witness for C1 at a concrete store: a single cancelled booking on room 1
over the exact candidate window `[10, 20)` yields no conflict. -/
theorem conflictQuery_isSome_iff_overlap_witness :
    (conflictQuery [mkBooking 1 1 10 10 20 [] [] Status.cancelled]
        (fun b => b.room == 1) 10 20).isSome ↔
      ∃ b ∈ [mkBooking 1 1 10 10 20 [] [] Status.cancelled],
        (fun b => b.room == 1) b = true ∧ b.status ≠ Status.cancelled ∧
          10 < b.endTime ∧ b.startTime < 20 :=
  conflictQuery_isSome_iff_overlap
    [mkBooking 1 1 10 10 20 [] [] Status.cancelled]
    (fun b => b.room == 1) 10 20 (by decide) (by decide)

/-- C9: for every `updateBooking` call that supplies a status value, the
status-change notification email is never dispatched: the guard compares
the requested status against the booking object after `booking.status` has
already been overwritten with that very value, so it can never hold (and on
the client path no status email is sent at all). -/
theorem updateBooking_statusEmail_never_sent (db : Db) (bookingId : Nat)
    (req : UpdateReq) (actor : User) (st : Status)
    (hst : req.status = some st) :
    (updateBooking db bookingId req actor).emailSent = false := by
  unfold updateBooking
  cases h1 : findBooking db.bookings bookingId with
  | none => rfl
  | some booking =>
    dsimp only
    cases h2 : findRoom db booking.room with
    | none => rfl
    | some room =>
      dsimp only
      cases h3 : findStudio db room.studio with
      | none => rfl
      | some studio =>
        dsimp only
        unfold ownerPatch clientPatch
        rw [hst]
        cases hsf : req.staffIds <;> cases hn : req.notes <;>
          cases heq : req.equipmentIds <;> dsimp only <;>
          (repeat' split) <;> simp [bne]

/-- Witness for C9: an owner updating booking 1 of a concrete store with
status `confirmed` dispatches no email. -/
theorem updateBooking_statusEmail_never_sent_witness :
    (updateBooking
        ⟨[mkBooking 1 1 10 0 100 [] [] Status.pending], [roomOne],
          [demoStudio], [], []⟩
        1 ⟨none, none, some Status.confirmed, none⟩ ownerUser).emailSent
      = false :=
  updateBooking_statusEmail_never_sent _ 1 _ ownerUser Status.confirmed rfl

/-- C10: whenever `updateBooking` returns the updated booking, every field
outside the acting role's permitted set is unchanged, and a permitted field
whose supplied value is absent or falsy (absent `status`, absent arrays,
absent or empty-string `notes`) is unchanged: identity, room, client,
window, amount and cancellation bookkeeping are never touched; a client
(the booking's creator) can only have changed `notes`/`equipment`; any
other actor can only have changed `status`/`staff`/`notes`. -/
theorem updateBooking_frame (db : Db) (bookingId : Nat) (req : UpdateReq)
    (actor : User) (b b' : Booking)
    (hb : findBooking db.bookings bookingId = some b)
    (hok : (updateBooking db bookingId req actor).resp = UpdateResp.ok b') :
    b'.id = b.id ∧ b'.room = b.room ∧ b'.client = b.client ∧
    b'.startTime = b.startTime ∧ b'.endTime = b.endTime ∧
    b'.totalAmount = b.totalAmount ∧
    b'.cancellationReason = b.cancellationReason ∧
    b'.cancelledBy = b.cancelledBy ∧ b'.cancelledAt = b.cancelledAt ∧
    ((req.notes = none ∨ req.notes = some emptyString) →
      b'.notes = b.notes) ∧
    (req.status = none → b'.status = b.status) ∧
    (req.staffIds = none → b'.staff = b.staff) ∧
    (req.equipmentIds = none → b'.equipment = b.equipment) ∧
    (b.client = actor.id → b'.status = b.status ∧ b'.staff = b.staff) ∧
    (b.client ≠ actor.id → b'.equipment = b.equipment) := by
  unfold updateBooking at hok
  rw [hb] at hok
  dsimp only at hok
  cases h2 : findRoom db b.room with
  | none => rw [h2] at hok; simp at hok
  | some room =>
    rw [h2] at hok
    dsimp only at hok
    cases h3 : findStudio db room.studio with
    | none => rw [h3] at hok; simp at hok
    | some studio =>
      rw [h3] at hok
      dsimp only at hok
      cases hst : req.status <;> cases hsf : req.staffIds <;>
        cases hn : req.notes <;> cases he : req.equipmentIds <;>
        simp only [clientPatch, ownerPatch, hst, hsf, hn, he] at hok <;>
        (repeat' split at hok) <;>
        dsimp only at hok <;>
        first
          | exact (UpdateResp.noConfusion hok)
          | (injection hok with h4; subst h4; simp_all [bne, emptyString])

/-- A pending demo booking: booking 1 on room 1, client 10, window
`[0, 100)`. -/
def pendingDemoBooking : Booking := mkBooking 1 1 10 0 100 [] [] Status.pending

/-- The same booking with status `confirmed`. -/
def confirmedDemoBooking : Booking :=
  mkBooking 1 1 10 0 100 [] [] Status.confirmed

/-- A store holding only `pendingDemoBooking`, room 1 and studio 1. -/
def demoDbPending : Db :=
  ⟨[pendingDemoBooking], [roomOne], [demoStudio], [], []⟩

/-- An update request supplying only a status (`confirmed`). -/
def statusOnlyReq : UpdateReq := ⟨none, none, some Status.confirmed, none⟩

/-- Witness for C10: the owner updating the concrete pending booking with
only a status leaves every other field unchanged. -/
theorem updateBooking_frame_witness :
    confirmedDemoBooking.id = pendingDemoBooking.id ∧
    confirmedDemoBooking.room = pendingDemoBooking.room ∧
    confirmedDemoBooking.client = pendingDemoBooking.client ∧
    confirmedDemoBooking.startTime = pendingDemoBooking.startTime ∧
    confirmedDemoBooking.endTime = pendingDemoBooking.endTime ∧
    confirmedDemoBooking.totalAmount = pendingDemoBooking.totalAmount ∧
    confirmedDemoBooking.cancellationReason =
      pendingDemoBooking.cancellationReason ∧
    confirmedDemoBooking.cancelledBy = pendingDemoBooking.cancelledBy ∧
    confirmedDemoBooking.cancelledAt = pendingDemoBooking.cancelledAt ∧
    ((statusOnlyReq.notes = none ∨ statusOnlyReq.notes = some emptyString) →
      confirmedDemoBooking.notes = pendingDemoBooking.notes) ∧
    (statusOnlyReq.status = none →
      confirmedDemoBooking.status = pendingDemoBooking.status) ∧
    (statusOnlyReq.staffIds = none →
      confirmedDemoBooking.staff = pendingDemoBooking.staff) ∧
    (statusOnlyReq.equipmentIds = none →
      confirmedDemoBooking.equipment = pendingDemoBooking.equipment) ∧
    (pendingDemoBooking.client = ownerUser.id →
      confirmedDemoBooking.status = pendingDemoBooking.status ∧
        confirmedDemoBooking.staff = pendingDemoBooking.staff) ∧
    (pendingDemoBooking.client ≠ ownerUser.id →
      confirmedDemoBooking.equipment = pendingDemoBooking.equipment) :=
  updateBooking_frame demoDbPending 1 statusOnlyReq ownerUser
    pendingDemoBooking confirmedDemoBooking (by decide) (by decide)

/-- A store with two pending bookings over the window `[0, 100)`:
booking 1 on room 1 holding staff 7, booking 2 on room 2 holding no staff;
staff record 7 belongs to studio 1. -/
def staffConflictDb : Db :=
  ⟨[mkBooking 1 1 10 0 100 [] [7] Status.pending,
    mkBooking 2 2 11 0 100 [] [] Status.pending],
   [roomOne, roomTwo], [demoStudio], [], [⟨7, 30, 1⟩]⟩

/-- An update request supplying only `staffIds = [7]`. -/
def staffOnlyReq : UpdateReq := ⟨none, none, none, some [7]⟩

/-- Counterexample to C2: assigning staff 7 to booking 2 overlaps staff 7's
existing non-cancelled reservation on booking 1 (the creation-flow conflict
query itself finds it), yet `updateBooking` succeeds and persists the
double-booking instead of rejecting with a resource conflict. -/
theorem updateBooking_conflict_not_rejected_cex :
    (conflictQuery staffConflictDb.bookings (fun b => b.staff.contains 7)
        0 100).isSome = true ∧
    (updateBooking staffConflictDb 2 staffOnlyReq ownerUser).resp =
      UpdateResp.ok (mkBooking 2 2 11 0 100 [] [7] Status.pending) ∧
    (updateBooking staffConflictDb 2 staffOnlyReq ownerUser).db.bookings =
      [mkBooking 1 1 10 0 100 [] [7] Status.pending,
       mkBooking 2 2 11 0 100 [] [7] Status.pending] := by
  decide

/-- C2 (amended): the update flow performs no conflict check at all: for an
authorized non-client actor (here the studio owner) the requested field
changes are applied and persisted unconditionally, with no hypothesis about
any other booking's reservations. -/
theorem updateBooking_applies_without_conflict_check (db : Db)
    (bookingId : Nat) (req : UpdateReq) (u : User) (b : Booking)
    (room : Room) (studio : Studio)
    (hb : findBooking db.bookings bookingId = some b)
    (hr : findRoom db b.room = some room)
    (hs : findStudio db room.studio = some studio)
    (hnc : b.client ≠ u.id)
    (hown : studio.owner = u.id) :
    (updateBooking db bookingId req u).resp =
      UpdateResp.ok (ownerPatch b req) ∧
    (updateBooking db bookingId req u).db.bookings =
      saveBooking db.bookings (ownerPatch b req) := by
  unfold updateBooking
  rw [hb]
  dsimp only
  rw [hr]
  dsimp only
  rw [hs]
  dsimp only
  have h1 : (b.client == u.id) = false := by simp [hnc]
  have h2 : (studio.owner == u.id) = true := by simp [hown]
  simp [h1, h2]

/-- Witness for C2's amended theorem at the concrete store. -/
theorem updateBooking_applies_without_conflict_check_witness :
    (updateBooking staffConflictDb 2 staffOnlyReq ownerUser).resp =
      UpdateResp.ok
        (ownerPatch (mkBooking 2 2 11 0 100 [] [] Status.pending)
          staffOnlyReq) ∧
    (updateBooking staffConflictDb 2 staffOnlyReq ownerUser).db.bookings =
      saveBooking staffConflictDb.bookings
        (ownerPatch (mkBooking 2 2 11 0 100 [] [] Status.pending)
          staffOnlyReq) :=
  updateBooking_applies_without_conflict_check staffConflictDb 2 staffOnlyReq
    ownerUser (mkBooking 2 2 11 0 100 [] [] Status.pending) roomTwo demoStudio
    (by decide) (by decide) (by decide) (by decide) (by decide)

/-- A store holding a single cancelled booking on room 1. -/
def cancelledDemoDb : Db :=
  ⟨[mkBooking 1 1 10 0 100 [] [] Status.cancelled], [roomOne], [demoStudio],
   [], []⟩

/-- Counterexample to C3: the owner confirming a booking whose status is
`cancelled` (not pending) receives a success response — no invalid-transition
error exists — and the stored status changes to `confirmed`. -/
theorem confirmBooking_non_pending_cex :
    (confirmBooking cancelledDemoDb 1 ownerUser true).fst = ConfirmResp.ok ∧
    findBooking
        (confirmBooking cancelledDemoDb 1 ownerUser true).snd.bookings 1 =
      some (mkBooking 1 1 10 0 100 [] [] Status.confirmed) := by
  decide

/-- C3 (amended): `confirmBooking` performs no state check: for an
authorized owner or staff actor it sets the booking's status to `confirmed`
whatever the current status is, and (when the notification succeeds)
responds with success. -/
theorem confirmBooking_always_confirms (db : Db) (bookingId : Nat) (u : User)
    (b : Booking) (room : Room) (studio : Studio)
    (hb : findBooking db.bookings bookingId = some b)
    (hr : findRoom db b.room = some room)
    (hs : findStudio db room.studio = some studio)
    (hrole : u.userType = Role.studio_owner ∨ u.userType = Role.staffRole)
    (hauth : studio.owner = u.id ∨
      (u.userType = Role.staffRole ∧ staffExists db u.id studio.id = true)) :
    (confirmBooking db bookingId u true).fst = ConfirmResp.ok ∧
    (confirmBooking db bookingId u true).snd.bookings =
      saveBooking db.bookings { b with status := Status.confirmed } := by
  unfold confirmBooking
  have h0 : (u.userType == Role.studio_owner ||
      u.userType == Role.staffRole) = true := by
    rcases hrole with h | h
    · simp [h]
    · simp [h]
  have h1 : (studio.owner == u.id ||
      u.userType == Role.staffRole && staffExists db u.id studio.id)
      = true := by
    rcases hauth with h | ⟨ha, hb2⟩
    · simp [h]
    · simp [ha, hb2]
  simp only [h0, Bool.not_true, Bool.false_eq_true, if_false]
  rw [hb]
  dsimp only
  rw [hr]
  dsimp only
  rw [hs]
  dsimp only
  rw [h1]
  simp only [Bool.not_true, Bool.false_eq_true, if_false]
  exact ⟨rfl, rfl⟩

/-- Witness for C3's amended theorem: confirming the cancelled concrete
booking. -/
theorem confirmBooking_always_confirms_witness :
    (confirmBooking cancelledDemoDb 1 ownerUser true).fst = ConfirmResp.ok ∧
    (confirmBooking cancelledDemoDb 1 ownerUser true).snd.bookings =
      saveBooking cancelledDemoDb.bookings
        { mkBooking 1 1 10 0 100 [] [] Status.cancelled with
          status := Status.confirmed } :=
  confirmBooking_always_confirms cancelledDemoDb 1 ownerUser
    (mkBooking 1 1 10 0 100 [] [] Status.cancelled) roomOne demoStudio
    (by decide) (by decide) (by decide) (by decide) (by decide)

/-- A store holding a single completed booking on room 1. -/
def completedDemoDb : Db :=
  ⟨[mkBooking 1 1 10 0 100 [] [] Status.completed], [roomOne], [demoStudio],
   [], []⟩

/-- Counterexample to C4: `completed` is not terminal — the owner cancelling
a completed booking succeeds and the stored status changes to `cancelled`
(and by `confirmBooking_non_pending_cex`'s store, `cancelled` is likewise
left via confirm). -/
theorem cancelBooking_terminal_state_cex :
    (cancelBooking completedDemoDb 1 ownerUser none 42 true).fst =
      CancelResp.ok ∧
    findBooking
        (cancelBooking completedDemoDb 1 ownerUser none 42 true).snd.bookings
        1 =
      some { mkBooking 1 1 10 0 100 [] [] Status.completed with
        status := Status.cancelled
        cancellationReason := "No reason provided"
        cancelledBy := some 20
        cancelledAt := some 42 } := by
  decide

/-- C4 (amended): no lifecycle guard exists — `cancelBooking` by any
authorized actor (client, owner or staff) sets the status to `cancelled`
from any current status, including the supposedly terminal `completed` and
`cancelled`; `cancel` is not restricted to `pending`/`confirmed`. -/
theorem cancelBooking_from_any_status (db : Db) (bookingId : Nat) (u : User)
    (reason : Option String) (now : Int) (b : Booking) (room : Room)
    (studio : Studio)
    (hb : findBooking db.bookings bookingId = some b)
    (hr : findRoom db b.room = some room)
    (hs : findStudio db room.studio = some studio)
    (hauth : b.client = u.id ∨ studio.owner = u.id ∨
      (u.userType = Role.staffRole ∧ staffExists db u.id studio.id = true)) :
    (cancelBooking db bookingId u reason now true).fst = CancelResp.ok ∧
    (cancelBooking db bookingId u reason now true).snd.bookings =
      saveBooking db.bookings
        { b with
          status := Status.cancelled
          cancellationReason := reasonOrDefault reason
          cancelledBy := some u.id
          cancelledAt := some now } := by
  unfold cancelBooking
  rw [hb]
  dsimp only
  rw [hr]
  dsimp only
  rw [hs]
  dsimp only
  have h1 : (b.client == u.id || studio.owner == u.id ||
      u.userType == Role.staffRole && staffExists db u.id studio.id)
      = true := by
    rcases hauth with h | h | ⟨ha, hb2⟩
    · simp [h]
    · simp [h]
    · simp [ha, hb2]
  rw [h1]
  simp only [Bool.not_true, Bool.false_eq_true, if_false]
  exact ⟨rfl, rfl⟩

/-- Witness for C4's amended theorem: cancelling the completed concrete
booking. -/
theorem cancelBooking_from_any_status_witness :
    (cancelBooking completedDemoDb 1 ownerUser none 42 true).fst =
      CancelResp.ok ∧
    (cancelBooking completedDemoDb 1 ownerUser none 42 true).snd.bookings =
      saveBooking completedDemoDb.bookings
        { mkBooking 1 1 10 0 100 [] [] Status.completed with
          status := Status.cancelled
          cancellationReason := reasonOrDefault none
          cancelledBy := some ownerUser.id
          cancelledAt := some 42 } :=
  cancelBooking_from_any_status completedDemoDb 1 ownerUser none 42
    (mkBooking 1 1 10 0 100 [] [] Status.completed) roomOne demoStudio
    (by decide) (by decide) (by decide) (by decide)

/-- A store holding a single confirmed booking on room 1. -/
def confirmedOnlyDb : Db :=
  ⟨[mkBooking 1 1 10 0 100 [] [] Status.confirmed], [roomOne], [demoStudio],
   [], []⟩

/-- Counterexample to C5: the studio owner deleting a confirmed booking is
not denied — the deletion succeeds and removes the booking. -/
theorem deleteBooking_owner_not_forbidden_cex :
    (deleteBooking confirmedOnlyDb 1 ownerUser).fst = DeleteResp.ok ∧
    (deleteBooking confirmedOnlyDb 1 ownerUser).snd.bookings = [] := by
  decide

/-- C5 (amended): deletion is authorized for the booking's client, the
studio owner, or studio staff; only a client is restricted to pending
bookings — the owner or staff may delete a booking in any status.  On
success the booking is removed; otherwise the store is unchanged. -/
theorem deleteBooking_characterization (db : Db) (bookingId : Nat) (u : User)
    (b : Booking) (room : Room) (studio : Studio)
    (hb : findBooking db.bookings bookingId = some b)
    (hr : findRoom db b.room = some room)
    (hs : findStudio db room.studio = some studio) :
    ((deleteBooking db bookingId u).fst = DeleteResp.ok ↔
      ((b.client = u.id ∨ studio.owner = u.id ∨
          (u.userType = Role.staffRole ∧
            staffExists db u.id studio.id = true)) ∧
        (b.client = u.id → b.status = Status.pending))) ∧
    ((deleteBooking db bookingId u).fst = DeleteResp.ok →
      (deleteBooking db bookingId u).snd.bookings =
        db.bookings.eraseP (fun x => x.id == bookingId)) ∧
    ((deleteBooking db bookingId u).fst ≠ DeleteResp.ok →
      (deleteBooking db bookingId u).snd = db) := by
  unfold deleteBooking
  rw [hb]
  dsimp only
  rw [hr]
  dsimp only
  rw [hs]
  dsimp only
  by_cases hc1 : b.client = u.id <;>
    by_cases hc2 : studio.owner = u.id <;>
    by_cases hc3 : u.userType = Role.staffRole <;>
    by_cases hc4 : staffExists db u.id studio.id = true <;>
    by_cases hc5 : b.status = Status.pending <;>
    simp_all [bne, Bool.and_eq_true, Bool.not_eq_true]

/-- Witness for C5's amended theorem: the owner deleting the confirmed
concrete booking, which the characterization says succeeds and removes
it. -/
theorem deleteBooking_characterization_witness :
    ((deleteBooking confirmedOnlyDb 1 ownerUser).fst = DeleteResp.ok ↔
      (((mkBooking 1 1 10 0 100 [] [] Status.confirmed).client =
            ownerUser.id ∨
          demoStudio.owner = ownerUser.id ∨
          (ownerUser.userType = Role.staffRole ∧
            staffExists confirmedOnlyDb ownerUser.id demoStudio.id = true)) ∧
        ((mkBooking 1 1 10 0 100 [] [] Status.confirmed).client =
            ownerUser.id →
          (mkBooking 1 1 10 0 100 [] [] Status.confirmed).status =
            Status.pending))) ∧
    ((deleteBooking confirmedOnlyDb 1 ownerUser).fst = DeleteResp.ok →
      (deleteBooking confirmedOnlyDb 1 ownerUser).snd.bookings =
        confirmedOnlyDb.bookings.eraseP (fun x => x.id == 1)) ∧
    ((deleteBooking confirmedOnlyDb 1 ownerUser).fst ≠ DeleteResp.ok →
      (deleteBooking confirmedOnlyDb 1 ownerUser).snd = confirmedOnlyDb) :=
  deleteBooking_characterization confirmedOnlyDb 1 ownerUser
    (mkBooking 1 1 10 0 100 [] [] Status.confirmed) roomOne demoStudio
    (by decide) (by decide) (by decide)

/-- A store with room 1 (rate 50) and no bookings. -/
def emptyRoomDb : Db := ⟨[], [roomOne], [demoStudio], [], []⟩

/-- A creation request for room 1 whose window is inverted:
start 100, end 50. -/
def invertedReq : CreateReq := ⟨1, 100, 50, [], [], emptyString⟩

/-- The booking that the creation flow persists for `invertedReq`. -/
def invertedBooking : Booking :=
  ⟨9, 1, 10, 100, 50, [], [], computeTotalAmount 50 100 50, emptyString,
    Status.pending, emptyString, none, none⟩

/-- Counterexample to C6: a creation request with `end_time < start_time`
is not rejected — there is no invalid-window error anywhere in the flow —
and the booking is persisted with the inverted window. -/
theorem createBooking_no_window_validation_cex :
    (createBooking emptyRoomDb invertedReq clientUser 9 true).fst =
      CreateResp.created invertedBooking ∧
    (createBooking emptyRoomDb invertedReq clientUser 9 true).snd.bookings =
      [invertedBooking] ∧
    invertedBooking.endTime < invertedBooking.startTime := by
  decide

/-- C6 (amended): neither the route validators (which only check that the
times are ISO-8601 strings) nor the controller validate `end > start`:
whenever the room resolves, the room conflict query is empty and no
equipment or staff is requested, a request with `end_time ≤ start_time` is
accepted and persisted as a pending booking with the inverted window. -/
theorem createBooking_accepts_inverted_window (db : Db) (req : CreateReq)
    (u : User) (nid : Nat) (room : Room)
    (hw : req.endTime ≤ req.startTime)
    (hroom : findRoom db req.roomId = some room)
    (hconf : conflictQuery db.bookings (fun b => b.room == req.roomId)
      req.startTime req.endTime = none)
    (heq : req.equipmentIds = [])
    (hsf : req.staffIds = []) :
    (createBooking db req u nid true).fst = CreateResp.created
      ⟨nid, req.roomId, u.id, req.startTime, req.endTime, req.equipmentIds,
        req.staffIds,
        computeTotalAmount room.hourlyRate req.startTime req.endTime,
        req.notes, Status.pending, emptyString, none, none⟩ ∧
    (createBooking db req u nid true).snd.bookings =
      db.bookings ++
        [⟨nid, req.roomId, u.id, req.startTime, req.endTime,
          req.equipmentIds, req.staffIds,
          computeTotalAmount room.hourlyRate req.startTime req.endTime,
          req.notes, Status.pending, emptyString, none, none⟩] := by
  unfold createBooking
  rw [hroom]
  dsimp only
  simp [hconf, heq, hsf, emptyString]

/-- Witness for C6's amended theorem at the concrete inverted request. -/
theorem createBooking_accepts_inverted_window_witness :
    (createBooking emptyRoomDb invertedReq clientUser 9 true).fst =
      CreateResp.created
        ⟨9, invertedReq.roomId, clientUser.id, invertedReq.startTime,
          invertedReq.endTime, invertedReq.equipmentIds, invertedReq.staffIds,
          computeTotalAmount roomOne.hourlyRate invertedReq.startTime
            invertedReq.endTime,
          invertedReq.notes, Status.pending, emptyString, none, none⟩ ∧
    (createBooking emptyRoomDb invertedReq clientUser 9 true).snd.bookings =
      emptyRoomDb.bookings ++
        [⟨9, invertedReq.roomId, clientUser.id, invertedReq.startTime,
          invertedReq.endTime, invertedReq.equipmentIds, invertedReq.staffIds,
          computeTotalAmount roomOne.hourlyRate invertedReq.startTime
            invertedReq.endTime,
          invertedReq.notes, Status.pending, emptyString, none, none⟩] :=
  createBooking_accepts_inverted_window emptyRoomDb invertedReq clientUser 9
    roomOne (by decide) (by decide) (by decide) (by decide) (by decide)

/-- A room with hourly rate 55.5 (an exactly representable binary64 value)
in studio 1. -/
def rateRoom : Room := ⟨3, 1, mkRat 111 2⟩

/-- A store with `rateRoom` and no bookings. -/
def rateDb : Db := ⟨[], [rateRoom], [demoStudio], [], []⟩

/-- A creation request for `rateRoom` over a 6-minute window
(360000 ms = 0.1 h). -/
def rateReq : CreateReq := ⟨3, 0, 360000, [], [], emptyString⟩

/-- Counterexample to C7: for hourly rate 55.5 and a 0.1-hour window the
exact decimal amount is 5.55, but the creation flow computes
`hourlyRate * durationHours` in binary64 floating point, and the persisted
total differs from 5.55 (it is 6248744482976564 / 2^50, the JavaScript value
5.550000000000001). -/
theorem totalAmount_not_exact_decimal_cex :
    (createBooking rateDb rateReq clientUser 9 true).fst =
      CreateResp.created
        ⟨9, 3, 10, 0, 360000, [], [],
          computeTotalAmount (mkRat 111 2) 0 360000, emptyString,
          Status.pending, emptyString, none, none⟩ ∧
    computeTotalAmount (mkRat 111 2) 0 360000 ≠ (5.55 : Rat) ∧
    mkRat 111 2 = (55.5 : Rat) ∧
    computeTotalAmount (mkRat 111 2) 0 360000 =
      Rat.divInt 6248744482976564 ((2 : Int) ^ (50 : Nat)) := by
  refine ⟨by decide, ?_, by norm_num [mkRat], by decide⟩
  have h : (5.55 : Rat) = mkRat 111 20 := by norm_num [mkRat]
  rw [h]
  decide

/-- C7 (amended): every created booking's total amount is
`room.hourly_rate × (duration in hours)` computed in IEEE-754 binary64
(JavaScript number) arithmetic — not exact decimal arithmetic — and in the
spec's scenario (rate 50.00, a 2-hour window) the binary64 result is still
exactly 100.00 because every intermediate value is representable. -/
theorem createBooking_totalAmount_binary64 (db : Db) (req : CreateReq)
    (u : User) (nid : Nat) (emailOk : Bool) (room : Room) (b : Booking)
    (hroom : findRoom db req.roomId = some room)
    (hc : (createBooking db req u nid emailOk).fst = CreateResp.created b) :
    b.totalAmount =
      computeTotalAmount room.hourlyRate req.startTime req.endTime ∧
    computeTotalAmount 50 0 7200000 = 100 := by
  unfold createBooking at hc
  rw [hroom] at hc
  dsimp only at hc
  (repeat' split at hc) <;>
    dsimp only at hc <;>
    first
      | exact (CreateResp.noConfusion hc)
      | (injection hc with h4; subst h4; exact ⟨rfl, by decide⟩)

/-- A creation request for room 1 over a 2-hour window (7200000 ms). -/
def twoHourReq : CreateReq := ⟨1, 0, 7200000, [], [], emptyString⟩

/-- The booking the creation flow persists for `twoHourReq` on room 1. -/
def scenarioBooking : Booking :=
  ⟨9, 1, 10, 0, 7200000, [], [], computeTotalAmount 50 0 7200000,
    emptyString, Status.pending, emptyString, none, none⟩

/-- Witness for C7's amended theorem: rate 50.00 over 2 hours gives exactly
100.00. -/
theorem createBooking_totalAmount_binary64_witness :
    scenarioBooking.totalAmount =
      computeTotalAmount roomOne.hourlyRate twoHourReq.startTime
        twoHourReq.endTime ∧
    computeTotalAmount 50 0 7200000 = 100 :=
  createBooking_totalAmount_binary64 emptyRoomDb twoHourReq clientUser 9 true
    roomOne scenarioBooking (by decide) (by decide)

/-- Counterexample to C8: when the owner-notification send fails after the
booking was persisted, the caller receives a server error — not a success
result — although the booking indeed stays in the store (no rollback). -/
theorem createBooking_email_failure_not_success_cex :
    (createBooking emptyRoomDb twoHourReq clientUser 9 false).fst =
      CreateResp.serverError ∧
    (createBooking emptyRoomDb twoHourReq clientUser 9 false).snd.bookings =
      [scenarioBooking] := by
  decide

/-- C8 (amended): a failed owner notification does not roll back the
persisted booking — the resulting store is identical to the one of a
successful send — but the response to the caller is a 500 server error
rather than the created booking. -/
theorem createBooking_email_failure_no_rollback (db : Db) (req : CreateReq)
    (u : User) (nid : Nat) (room : Room)
    (hroom : findRoom db req.roomId = some room)
    (hconf : conflictQuery db.bookings (fun b => b.room == req.roomId)
      req.startTime req.endTime = none)
    (heq : req.equipmentIds = [])
    (hsf : req.staffIds = []) :
    (createBooking db req u nid false).snd =
      (createBooking db req u nid true).snd ∧
    (createBooking db req u nid false).fst = CreateResp.serverError ∧
    (createBooking db req u nid true).fst = CreateResp.created
      ⟨nid, req.roomId, u.id, req.startTime, req.endTime, req.equipmentIds,
        req.staffIds,
        computeTotalAmount room.hourlyRate req.startTime req.endTime,
        req.notes, Status.pending, emptyString, none, none⟩ := by
  unfold createBooking
  rw [hroom]
  dsimp only
  simp [hconf, heq, hsf, emptyString]

/-- Witness for C8's amended theorem at the concrete two-hour request. -/
theorem createBooking_email_failure_no_rollback_witness :
    (createBooking emptyRoomDb twoHourReq clientUser 9 false).snd =
      (createBooking emptyRoomDb twoHourReq clientUser 9 true).snd ∧
    (createBooking emptyRoomDb twoHourReq clientUser 9 false).fst =
      CreateResp.serverError ∧
    (createBooking emptyRoomDb twoHourReq clientUser 9 true).fst =
      CreateResp.created
        ⟨9, twoHourReq.roomId, clientUser.id, twoHourReq.startTime,
          twoHourReq.endTime, twoHourReq.equipmentIds, twoHourReq.staffIds,
          computeTotalAmount roomOne.hourlyRate twoHourReq.startTime
            twoHourReq.endTime,
          twoHourReq.notes, Status.pending, emptyString, none, none⟩ :=
  createBooking_email_failure_no_rollback emptyRoomDb twoHourReq clientUser 9
    roomOne (by decide) (by decide) (by decide) (by decide)

end StudioBooking
